import Mathlib

/-!
Shallow embedding of `homeassistant/components/pvcharge/pvcharger.py`.

The `PVCharger` class is a finite state machine (built on the `transitions`
library's `AsyncMachine`) controlling PV charging, together with a
`simple_pid.PID` feedback controller.  Machine floats are modelled as `ℚ`;
Home-Assistant service calls and handle registrations are modelled as an
explicit effect trace; the wall clock enters only through explicit `dt`
arguments.  Fallible operations (Python `float()` parsing, `dict.pop`,
`MachineError` for invalid triggers, `TypeError` from invoking a
non-callable) are modelled with `Option` / `Except` / explicit result
codes.

One source defect matters throughout: the watcher methods at lines 96 and
112 are decorated with `@callable` — the Python builtin, not
`homeassistant.core.callback` — which rebinds each class attribute to the
boolean `True`.  The handler bodies are therefore dead code; they are
embedded separately (as `..._body`) next to the attribute values the
program actually has.
-/

namespace PVCharge

/-- The states declared in `PVCharger.states`
(`["off", "idle", "pv", "max", "low_batt", "calendar"]`). -/
inductive Mode where
  | off
  | idle
  | pv
  | max
  | low_batt
  | calendar
deriving DecidableEq, Repr

/-- The trigger names appearing in `PVCharger.transitions`. -/
inductive Trigger where
  | auto
  | start
  | pause
  | boost
  | soc_low
  | halt
deriving DecidableEq, Repr

/-- The guard-method names referenced by the transition table
(`"min_soc"`, `"enough_power"`). -/
inductive Guard where
  | min_soc
  | enough_power
deriving DecidableEq, Repr

/-- A transition-table source: either the wildcard `"*"` or an explicit
list of state names, as accepted by `transitions.Machine`. -/
inductive Src where
  | star
  | modes (ms : List Mode)
deriving DecidableEq, Repr

/-- Whether a source set covers a state (`"*"` covers every state). -/
def Src.containsMode : Src → Mode → Bool
  | .star, _ => true
  | .modes ms, m => decide (m ∈ ms)

/-- One row of `PVCharger.transitions` in the `transitions` library's
list format `[trigger, source, dest, conditions, unless]`. -/
structure TransRule where
  trigger : Trigger
  source : Src
  dest : Mode
  conditions : List Guard
  unless_ : List Guard
deriving DecidableEq, Repr

/-- The transition table `PVCharger.transitions`, row for row. -/
def PVCharger.transitions : List TransRule :=
  [ ⟨.auto, .modes [.off, .max, .low_batt, .calendar], .low_batt, [], [.min_soc]⟩,
    ⟨.auto, .modes [.off, .max, .low_batt, .calendar], .pv, [.enough_power], []⟩,
    ⟨.auto, .modes [.off, .max, .low_batt, .calendar], .idle, [], []⟩,
    ⟨.start, .modes [.idle], .pv, [], []⟩,
    ⟨.pause, .modes [.pv], .idle, [], []⟩,
    ⟨.boost, .star, .max, [], []⟩,
    ⟨.soc_low, .modes [.idle, .pv], .low_batt, [], []⟩,
    ⟨.halt, .star, .off, [], []⟩ ]

/-- The constructor arguments of `PVCharger.__init__` that are plain
configuration values.  `charge_switch` is its truthiness (`if self.charge_switch:`). -/
structure Config where
  charge_switch : Bool
  charge_min : ℚ
  charge_max : ℚ
  pv_threshold : ℚ
  pv_hysteresis : ℚ
  duration : ℚ
  low_value : ℚ
  pid_interval : ℚ
deriving DecidableEq, Repr

/-- `simple_pid._clamp value (lower, upper)`: the upper bound is applied
first, then the lower bound. -/
def pidClamp (lo hi v : ℚ) : ℚ :=
  if v > hi then hi else if v < lo then lo else v

/-- The state of a `simple_pid.PID` object.  `_last_time` is not stored:
the elapsed time since the previous update (or since `set_auto_mode`)
is passed to `PID.call` as an explicit `dt`. -/
structure PID where
  Kp : ℚ
  Ki : ℚ
  Kd : ℚ
  setpoint : ℚ
  sample_time : ℚ
  out_min : ℚ
  out_max : ℚ
  auto_mode : Bool
  integral : ℚ
  last_output : Option ℚ
  last_input : Option ℚ
deriving DecidableEq, Repr

/-- The `PID(-1.0, -0.1, 0.0, setpoint=0.0, sample_time=1,
output_limits=(charge_min, charge_max))` construction in `PVCharger.__init__`;
`simple_pid.PID.__init__` defaults to auto mode and ends in `reset()`,
which clamps the zero integral into the output limits. -/
def PID.init (cfg : Config) : PID :=
  { Kp := -1, Ki := -1/10, Kd := 0, setpoint := 0, sample_time := 1,
    out_min := cfg.charge_min, out_max := cfg.charge_max,
    auto_mode := true,
    integral := pidClamp cfg.charge_min cfg.charge_max 0,
    last_output := none, last_input := none }

/-- `simple_pid.PID.set_auto_mode(enabled, last_output)`: switching from
manual to auto resets the stored input and presets the integral to the
clamped `last_output` (bumpless transfer); it has no effect on the internal
terms when the controller is already in auto mode. -/
def PID.set_auto_mode (p : PID) (enabled : Bool) (last_output : Option ℚ) : PID :=
  if enabled && !p.auto_mode then
    { p with auto_mode := true,
             last_output := last_output,
             last_input := none,
             integral := pidClamp p.out_min p.out_max (last_output.getD 0) }
  else
    { p with auto_mode := enabled }

/-- `simple_pid.PID.__call__(input)` with the elapsed time `dt` explicit:
returns the stored output in manual mode or when `dt` is below the sample
time, otherwise computes `clamp(P + I + D)` with the integral accumulated
and clamped.  `proportional_on_measurement` is off (the default). -/
def PID.call (p : PID) (input dt : ℚ) : PID × Option ℚ :=
  if !p.auto_mode then (p, p.last_output)
  else if dt < p.sample_time && p.last_output.isSome then (p, p.last_output)
  else
    let error := p.setpoint - input
    let d_input := input - p.last_input.getD input
    let proportional := p.Kp * error
    let integral := pidClamp p.out_min p.out_max (p.integral + p.Ki * error * dt)
    let derivative := -p.Kd * d_input / dt
    let output := pidClamp p.out_min p.out_max (proportional + integral + derivative)
    ({ p with integral := integral,
              last_output := some output,
              last_input := some input },
     some output)

/-- The mutable controller state of a `PVCharger` instance.
`handle_balance` / `handle_soc` model membership of `"balance"` / `"soc"`
in `self._handles`; `pid_handle` / `timeisup_handle` model whether those
attributes are non-`None`. -/
structure PVCharger where
  mode : Mode
  control : ℚ
  current : ℚ
  soc : ℚ
  handle_balance : Bool
  handle_soc : Bool
  pid_handle : Bool
  timeisup_handle : Bool
  pid : PID
deriving DecidableEq, Repr

/-- Externally visible side effects (Home-Assistant service calls and
handle registrations/cancellations), in the order the code performs them. -/
inductive Effect where
  /-- `goecharger.set_max_current` service call in `_async_update_control`. -/
  | set_max_current (q : ℚ)
  /-- `switch.turn_on` / `switch.turn_off` in `_async_turn_charge_switch`. -/
  | turn_switch (value : Bool)
  /-- `async_track_template_result` registration for the balance template. -/
  | track_balance
  /-- `async_track_template_result` registration for the SOC template. -/
  | track_soc
  /-- `self._handles.pop(name).async_remove()`. -/
  | remove_handle (name : String)
  /-- `async_track_time_interval(..., timedelta(seconds=pid_interval))`. -/
  | track_time_interval (seconds : ℚ)
  /-- cancelling the periodic PID tick (`self.pid_handle()`). -/
  | cancel_pid_handle
  /-- `async_call_later(hass, duration, ...)`, duration in minutes. -/
  | call_later (minutes : ℚ)
  /-- cancelling the pending expiry timer (`self.timeisup_handle()`). -/
  | cancel_timeisup
deriving DecidableEq, Repr

/-- The `enough_power` property: the threshold is lowered by the hysteresis
while in `pv` mode, and the cached balance must strictly exceed it. -/
def PVCharger.enough_power (cfg : Config) (st : PVCharger) : Bool :=
  let threshold :=
    if st.mode = .pv then cfg.pv_threshold - cfg.pv_hysteresis else cfg.pv_threshold
  decide (st.current > threshold)

/-- The `min_soc` property: cached SOC at or above `low_value`. -/
def PVCharger.min_soc (cfg : Config) (st : PVCharger) : Bool :=
  decide (st.soc ≥ cfg.low_value)

/-- Evaluate a guard name against the current controller state. -/
def evalGuard (cfg : Config) (st : PVCharger) : Guard → Bool
  | .min_soc => PVCharger.min_soc cfg st
  | .enough_power => PVCharger.enough_power cfg st

/-- `on_exit_off`: register the balance and SOC template watchers in
`self._handles`.  The registered actions are the class attributes
`self._async_watch_balance` / `self._async_watch_soc` — because of the
`@callable` decorators these are the boolean `True` (see
`PVCharger._async_watch_balance`); registration itself succeeds. -/
def on_exit_off (st : PVCharger) : PVCharger × List Effect :=
  ({ st with handle_balance := true, handle_soc := true },
   [.track_balance, .track_soc])

/-- `on_enter_off`: `self._handles.pop(t).async_remove()` for
`t in ["balance", "soc"]`; `dict.pop` raises `KeyError` when a handle is
missing, modelled as `none`. -/
def on_enter_off (st : PVCharger) : Option (PVCharger × List Effect) :=
  if st.handle_balance && st.handle_soc then
    some ({ st with handle_balance := false, handle_soc := false },
          [.remove_handle "balance", .remove_handle "soc"])
  else
    none

/-- `on_enter_pv`: set `control` to `charge_min`, push it, re-enable the
PID bumplessly at `control`, switch on (when configured), and register the
periodic PID tick at `pid_interval` seconds. -/
def on_enter_pv (cfg : Config) (st : PVCharger) : PVCharger × List Effect :=
  let st1 := { st with control := cfg.charge_min }
  let st2 := { st1 with pid := st1.pid.set_auto_mode true (some st1.control) }
  let st3 := { st2 with pid_handle := true }
  (st3,
   [Effect.set_max_current cfg.charge_min]
     ++ (if cfg.charge_switch then [Effect.turn_switch true] else [])
     ++ [Effect.track_time_interval cfg.pid_interval])

/-- `on_exit_pv`: disable the PID, switch off (when configured), and cancel
and clear the periodic PID tick when present. -/
def on_exit_pv (cfg : Config) (st : PVCharger) : PVCharger × List Effect :=
  let st1 := { st with pid := st.pid.set_auto_mode false none }
  let e1 := if cfg.charge_switch then [Effect.turn_switch false] else []
  if st1.pid_handle then
    ({ st1 with pid_handle := false }, e1 ++ [Effect.cancel_pid_handle])
  else
    (st1, e1)

/-- `on_enter_max(duration=timedelta(minutes=30))`: register the one-shot
expiry timer, force `control` to `charge_max`, push it, switch on (when
configured).  `dur` is the optional trigger argument, in minutes. -/
def on_enter_max (cfg : Config) (dur : Option ℚ) (st : PVCharger) :
    PVCharger × List Effect :=
  let d := dur.getD 30
  let st1 := { st with timeisup_handle := true, control := cfg.charge_max }
  (st1,
   [Effect.call_later d, Effect.set_max_current cfg.charge_max]
     ++ (if cfg.charge_switch then [Effect.turn_switch true] else []))

/-- `on_exit_max`: cancel and clear the pending expiry timer when present,
then switch off (when configured). -/
def on_exit_max (cfg : Config) (st : PVCharger) : PVCharger × List Effect :=
  let p := if st.timeisup_handle then
             ({ st with timeisup_handle := false }, [Effect.cancel_timeisup])
           else (st, ([] : List Effect))
  (p.1, p.2 ++ (if cfg.charge_switch then [Effect.turn_switch false] else []))

/-- `on_enter_low_batt`: force `control` to `charge_max`, push it, switch
on (when configured). -/
def on_enter_low_batt (cfg : Config) (st : PVCharger) : PVCharger × List Effect :=
  ({ st with control := cfg.charge_max },
   [Effect.set_max_current cfg.charge_max]
     ++ (if cfg.charge_switch then [Effect.turn_switch true] else []))

/-- `on_exit_low_batt`: switch off (when configured). -/
def on_exit_low_batt (cfg : Config) (st : PVCharger) : PVCharger × List Effect :=
  (st, if cfg.charge_switch then [Effect.turn_switch false] else [])

/-- Dispatch of the `on_exit_<state>` callbacks (states without such a
method have no exit action). -/
def exitAction (cfg : Config) : Mode → PVCharger → PVCharger × List Effect
  | .off => on_exit_off
  | .idle => fun st => (st, [])
  | .pv => on_exit_pv cfg
  | .max => on_exit_max cfg
  | .low_batt => on_exit_low_batt cfg
  | .calendar => fun st => (st, [])

/-- Dispatch of the `on_enter_<state>` callbacks; only `on_enter_off` can
fail (`KeyError`). -/
def enterAction (cfg : Config) (dur : Option ℚ) :
    Mode → PVCharger → Option (PVCharger × List Effect)
  | .off => on_enter_off
  | .idle => fun st => some (st, [])
  | .pv => fun st => some (on_enter_pv cfg st)
  | .max => fun st => some (on_enter_max cfg dur st)
  | .low_batt => fun st => some (on_enter_low_batt cfg st)
  | .calendar => fun st => some (st, [])

/-- A transition row matches a fired trigger when the trigger names agree,
the source set covers the current state, every `conditions` guard holds and
every `unless` guard fails. -/
def ruleApplies (cfg : Config) (st : PVCharger) (t : Trigger) (r : TransRule) : Bool :=
  decide (r.trigger = t) && r.source.containsMode st.mode
    && r.conditions.all (evalGuard cfg st)
    && r.unless_.all (fun g => !evalGuard cfg st g)

/-- Whether any transition row at all is declared for this trigger from
this state; when not, `transitions` raises `MachineError` (the machine is
constructed without `ignore_invalid_triggers`). -/
def triggerValidFrom (t : Trigger) (m : Mode) : Bool :=
  PVCharger.transitions.any (fun r => decide (r.trigger = t) && r.source.containsMode m)

/-- Result of awaiting a model trigger method. -/
inductive FireResult where
  /-- the trigger was processed; `fired` is the boolean the library returns
  (`false` when every matching row's guards failed). -/
  | ok (fired : Bool)
  /-- `MachineError`: no transition is declared for this trigger from the
  current state. -/
  | machineError
  /-- `KeyError` escaping from `on_enter_off`. -/
  | keyError
deriving DecidableEq, Repr

/-- Fire a trigger: the first declared row that matches wins; the source
state's exit callback runs, the state is set to the row's destination, the
destination's enter callback runs (`dur` is the optional argument forwarded
to `on_enter_max`).  On `MachineError` or guard failure nothing changes. -/
def fire (cfg : Config) (t : Trigger) (dur : Option ℚ) (st : PVCharger) :
    PVCharger × List Effect × FireResult :=
  if !triggerValidFrom t st.mode then
    (st, [], .machineError)
  else
    match PVCharger.transitions.find? (ruleApplies cfg st t) with
    | none => (st, [], .ok false)
    | some r =>
      let p1 := exitAction cfg st.mode st
      let st2 := { p1.1 with mode := r.dest }
      match enterAction cfg dur r.dest st2 with
      | none => (st2, p1.2, .keyError)
      | some p2 => (p2.1, p1.2 ++ p2.2, .ok true)

/-- The body of `_async_watch_balance` (lines 97-110): cache the new
balance value, then fire `pause` from `pv` without enough power, then fire
`start` from `idle` with enough power.  The third component lists the
triggers fired.  This body is DEAD CODE in the program: the decorator at
line 96 rebinds the method name before it can ever be invoked (see
`PVCharger._async_watch_balance`); it is embedded to record the behaviour
the body prescribes. -/
def PVCharger._async_watch_balance_body (cfg : Config) (v : ℚ) (st : PVCharger) :
    PVCharger × List Effect × List Trigger :=
  let st0 := { st with current := v }
  let p1 :=
    if st0.mode = .pv && !PVCharger.enough_power cfg st0 then
      let q := fire cfg .pause none st0
      (q.1, q.2.1, [Trigger.pause])
    else (st0, ([] : List Effect), ([] : List Trigger))
  let p2 :=
    if p1.1.mode = .idle && PVCharger.enough_power cfg p1.1 then
      let q := fire cfg .start none p1.1
      (q.1, q.2.1, [Trigger.start])
    else (p1.1, ([] : List Effect), ([] : List Trigger))
  (p2.1, p1.2.1 ++ p2.2.1, p1.2.2 ++ p2.2.2)

/-- The body of `_async_watch_soc` (lines 113-126): cache the new SOC
value, then fire `auto` from `low_batt` once the SOC is sufficient, then
fire `soc_low` from `idle` or `pv` when it is not.  The third component
lists the triggers fired.  Like the balance body, this is DEAD CODE: the
decorator at line 112 rebinds the method name (see
`PVCharger._async_watch_soc`). -/
def PVCharger._async_watch_soc_body (cfg : Config) (v : ℚ) (st : PVCharger) :
    PVCharger × List Effect × List Trigger :=
  let st0 := { st with soc := v }
  let p1 :=
    if st0.mode = .low_batt && PVCharger.min_soc cfg st0 then
      let q := fire cfg .auto none st0
      (q.1, q.2.1, [Trigger.auto])
    else (st0, ([] : List Effect), ([] : List Trigger))
  let p2 :=
    if (p1.1.mode = .idle || p1.1.mode = .pv) && !PVCharger.min_soc cfg p1.1 then
      let q := fire cfg .soc_low none p1.1
      (q.1, q.2.1, [Trigger.soc_low])
    else (p1.1, ([] : List Effect), ([] : List Trigger))
  (p2.1, p1.2.1 ++ p2.2.1, p1.2.2 ++ p2.2.2)

/-- A Python error surfaced when the event system invokes a registered
template-result action. -/
inductive PyError where
  | typeError
deriving DecidableEq, Repr

/-- A value registered as a template-result action: either a handler
function, which the tracker invokes on each template update, or a
non-callable object, which cannot be invoked. -/
inductive TrackAction where
  | handler (f : Config → ℚ → PVCharger → PVCharger × List Effect × List Trigger)
  | nonCallable

/-- Invoking a registered action on a template update, as the event system
does: a handler function runs on the new value; invoking a non-callable
object raises `TypeError` before the controller state is touched, so
nothing is updated and no trigger fires. -/
def invokeAction (a : TrackAction) (cfg : Config) (v : ℚ) (st : PVCharger) :
    Except PyError (PVCharger × List Effect × List Trigger) :=
  match a with
  | .handler f => .ok (f cfg v st)
  | .nonCallable => .error .typeError

/-- The class attribute `PVCharger._async_watch_balance` as the program
defines it.  Line 96 decorates the method with `@callable` — the Python
*builtin*, not `homeassistant.core.callback` (contrast lines 144 and 181) —
so the attribute is `callable(<async function>)`, i.e. the boolean `True`,
a non-callable object; the handler body survives only as
`PVCharger._async_watch_balance_body` and can never run. -/
def PVCharger._async_watch_balance : TrackAction := .nonCallable

/-- The class attribute `PVCharger._async_watch_soc` as the program defines
it: line 112 carries the same `@callable` decorator, so the attribute is
the boolean `True` and the handler body
(`PVCharger._async_watch_soc_body`) can never run. -/
def PVCharger._async_watch_soc : TrackAction := .nonCallable

/-- `_async_time_is_up`: clear the expiry-timer handle, then fire `auto`. -/
def PVCharger._async_time_is_up (cfg : Config) (st : PVCharger) :
    PVCharger × List Effect × FireResult :=
  fire cfg .auto none { st with timeisup_handle := false }

/-- `_async_update_pid`: recompute `control` from the PID at the cached
balance and push it.  In manual mode `self.pid(...)` returns `None`
(`self.control` would stop being a number), modelled as `none`. -/
def PVCharger._async_update_pid (dt : ℚ) (st : PVCharger) :
    Option (PVCharger × List Effect) :=
  let q := st.pid.call st.current dt
  match q.2 with
  | some out => some ({ st with pid := q.1, control := out },
                      [Effect.set_max_current out])
  | none => none

/-- `PVCharger.__init__`: seed `control` with `charge_min` and the cached
balance / SOC with `float(template.async_render())`; an unparsable render
(`float` raises `ValueError`) aborts construction, modelled by the
arguments being the `Option ℚ` parse results and the result being `none`.
The machine starts in `"off"` with no handles registered. -/
def PVCharger.init (cfg : Config) (balance_render soc_render : Option ℚ) :
    Option PVCharger :=
  match balance_render, soc_render with
  | some b, some s =>
      some { mode := .off, control := cfg.charge_min, current := b, soc := s,
             handle_balance := false, handle_soc := false,
             pid_handle := false, timeisup_handle := false,
             pid := PID.init cfg }
  | _, _ => none

end PVCharge

namespace PVCharge

/-! ### Bookkeeping invariant and generic facts about `fire` -/

/-- Handle bookkeeping that construction establishes and every callback
preserves: the PID tick exists only in `pv`, the expiry timer only in
`max`, and the template watchers exactly outside `off`. -/
def Inv (st : PVCharger) : Prop :=
  (st.pid_handle = true → st.mode = Mode.pv) ∧
  (st.timeisup_handle = true → st.mode = Mode.max) ∧
  (st.mode ≠ Mode.off → st.handle_balance = true ∧ st.handle_soc = true)

instance instDecidableInv (st : PVCharger) : Decidable (Inv st) :=
  inferInstanceAs (Decidable (_ ∧ _ ∧ _))

lemma exitAction_mode (cfg : Config) (m : Mode) (st : PVCharger) :
    ((exitAction cfg m st).1).mode = st.mode := by
  cases m <;>
    simp [exitAction, on_exit_off, on_exit_pv, on_exit_max, on_exit_low_batt] <;>
    split_ifs <;> rfl

lemma enterAction_mode (cfg : Config) (dur : Option ℚ) (d : Mode) (st : PVCharger)
    (p : PVCharger × List Effect) (h : enterAction cfg dur d st = some p) :
    p.1.mode = st.mode := by
  cases d <;>
    simp_all [enterAction, on_enter_off, on_enter_pv, on_enter_max, on_enter_low_batt] <;>
    (try obtain ⟨h1, h⟩ := h) <;> (try subst h) <;> rfl

lemma exitAction_soc (cfg : Config) (m : Mode) (st : PVCharger) :
    ((exitAction cfg m st).1).soc = st.soc := by
  cases m <;>
    simp [exitAction, on_exit_off, on_exit_pv, on_exit_max, on_exit_low_batt] <;>
    split_ifs <;> rfl

lemma enterAction_soc (cfg : Config) (dur : Option ℚ) (d : Mode) (st : PVCharger)
    (p : PVCharger × List Effect) (h : enterAction cfg dur d st = some p) :
    p.1.soc = st.soc := by
  cases d <;>
    simp_all [enterAction, on_enter_off, on_enter_pv, on_enter_max, on_enter_low_batt] <;>
    (try obtain ⟨h1, h⟩ := h) <;> (try subst h) <;> rfl

lemma fire_soc (cfg : Config) (t : Trigger) (dur : Option ℚ) (st : PVCharger) :
    (fire cfg t dur st).1.soc = st.soc := by
  unfold fire
  split
  · rfl
  · rcases hf : PVCharger.transitions.find? (ruleApplies cfg st t) with _ | r
    · simp [hf]
    · simp only [hf]
      rcases he : enterAction cfg dur r.dest { (exitAction cfg st.mode st).1 with mode := r.dest } with _ | p
      · simpa [he] using exitAction_soc cfg st.mode st
      · simp only [he]
        have h1 := enterAction_soc cfg dur r.dest _ p he
        simpa [h1] using exitAction_soc cfg st.mode st

lemma fire_mode_eq_or_dest (cfg : Config) (t : Trigger) (dur : Option ℚ) (st : PVCharger) :
    (fire cfg t dur st).1.mode = st.mode ∨
    ∃ r ∈ PVCharger.transitions, (fire cfg t dur st).1.mode = r.dest := by
  unfold fire
  split
  · exact Or.inl rfl
  · rcases hf : PVCharger.transitions.find? (ruleApplies cfg st t) with _ | r
    · simp [hf]
    · right
      refine ⟨r, List.mem_of_find?_eq_some hf, ?_⟩
      simp only [hf]
      rcases he : enterAction cfg dur r.dest { (exitAction cfg st.mode st).1 with mode := r.dest } with _ | p
      · simp [he]
      · simpa [he] using enterAction_mode cfg dur r.dest _ p he

lemma exitAction_fields (cfg : Config) (m : Mode) (st : PVCharger) :
    (exitAction cfg m st).1.pid_handle = (if m = Mode.pv then false else st.pid_handle) ∧
    (exitAction cfg m st).1.timeisup_handle = (if m = Mode.max then false else st.timeisup_handle) ∧
    (exitAction cfg m st).1.handle_balance = (if m = Mode.off then true else st.handle_balance) ∧
    (exitAction cfg m st).1.handle_soc = (if m = Mode.off then true else st.handle_soc) := by
  cases m <;>
    simp [exitAction, on_exit_off, on_exit_pv, on_exit_max, on_exit_low_batt] <;>
    split_ifs <;> simp_all

lemma enterAction_fields (cfg : Config) (dur : Option ℚ) (d : Mode) (st : PVCharger)
    (p : PVCharger × List Effect) (h : enterAction cfg dur d st = some p) :
    p.1.pid_handle = (if d = Mode.pv then true else st.pid_handle) ∧
    p.1.timeisup_handle = (if d = Mode.max then true else st.timeisup_handle) ∧
    p.1.handle_balance = (if d = Mode.off then false else st.handle_balance) ∧
    p.1.handle_soc = (if d = Mode.off then false else st.handle_soc) := by
  cases d <;>
    simp_all [enterAction, on_enter_off, on_enter_pv, on_enter_max, on_enter_low_batt] <;>
    (try obtain ⟨h1, h⟩ := h) <;> (try subst h) <;> simp_all

lemma Inv_fire (cfg : Config) (t : Trigger) (dur : Option ℚ) (st : PVCharger)
    (h : Inv st) : Inv (fire cfg t dur st).1 := by
  obtain ⟨h1, h2, h3⟩ := h
  unfold fire
  split
  · exact ⟨h1, h2, h3⟩
  · rcases hf : PVCharger.transitions.find? (ruleApplies cfg st t) with _ | r
    · simp only
      exact ⟨h1, h2, h3⟩
    · simp only
      rcases he : enterAction cfg dur r.dest { (exitAction cfg st.mode st).1 with mode := r.dest } with _ | p
      · obtain ⟨e1, e2, e3, e4⟩ := exitAction_fields cfg st.mode st
        refine ⟨?_, ?_, ?_⟩ <;> simp only [e1, e2, e3, e4]
        · split_ifs with hpv
          · simp
          · intro hp
            exact absurd (h1 hp) hpv
        · split_ifs with hmax
          · simp
          · intro hp
            exact absurd (h2 hp) hmax
        · intro hne
          split_ifs with hoff
          · simp
          · exact h3 hoff
      · obtain ⟨e1, e2, e3, e4⟩ := exitAction_fields cfg st.mode st
        obtain ⟨f1, f2, f3, f4⟩ := enterAction_fields cfg dur r.dest _ p he
        have hmode : p.1.mode = r.dest := by
          rw [enterAction_mode cfg dur r.dest _ p he]
        refine ⟨?_, ?_, ?_⟩
        · rw [f1, hmode, e1]
          split_ifs with hpv1 hpv2 <;> simp_all
        · rw [f2, hmode, e2]
          split_ifs with hm1 hm2 <;> simp_all
        · rw [hmode, f3, f4, e3, e4]
          intro hne
          split_ifs with hoff1 hoff2 <;> simp_all

/-! ### Characterizations of the individual triggers and callbacks -/

lemma fire_halt_char (cfg : Config) (dur : Option ℚ) (st : PVCharger) (h : Inv st) :
    (fire cfg .halt dur st).1 =
      { st with mode := .off, handle_balance := false, handle_soc := false,
                pid_handle := false, timeisup_handle := false,
                pid := if st.mode = .pv then st.pid.set_auto_mode false none else st.pid } ∧
    (fire cfg .halt dur st).2.2 = FireResult.ok true := by
  obtain ⟨h1, h2, h3⟩ := h
  obtain ⟨m, ctl, cur, soc, hb, hs, ph, th, pid⟩ := st
  cases m <;>
    simp_all [fire, triggerValidFrom, ruleApplies, PVCharger.transitions,
      Src.containsMode, evalGuard, exitAction, enterAction, on_exit_off,
      on_enter_off, on_exit_pv, on_exit_max, on_exit_low_batt] <;>
    split_ifs <;> simp_all

lemma fire_halt_effects (cfg : Config) (dur : Option ℚ) (st : PVCharger) (h : Inv st) :
    (st.pid_handle = true → Effect.cancel_pid_handle ∈ (fire cfg .halt dur st).2.1) ∧
    (st.timeisup_handle = true → Effect.cancel_timeisup ∈ (fire cfg .halt dur st).2.1) := by
  obtain ⟨h1, h2, h3⟩ := h
  obtain ⟨m, ctl, cur, soc, hb, hs, ph, th, pid⟩ := st
  cases m <;>
    simp_all [fire, triggerValidFrom, ruleApplies, PVCharger.transitions,
      Src.containsMode, evalGuard, exitAction, enterAction, on_exit_off,
      on_enter_off, on_exit_pv, on_exit_max, on_exit_low_batt] <;>
    split_ifs <;> simp_all

lemma fire_halt_off (cfg : Config) (dur : Option ℚ) (s : PVCharger)
    (hm : s.mode = Mode.off) (hb : s.handle_balance = false) (hs : s.handle_soc = false) :
    fire cfg .halt dur s =
      (s, [Effect.track_balance, Effect.track_soc,
           Effect.remove_handle "balance", Effect.remove_handle "soc"],
       FireResult.ok true) := by
  obtain ⟨m, ctl, cur, soc, hb', hs', ph, th, pid⟩ := s
  simp only at hm hb hs
  subst hm; subst hb; subst hs
  simp [fire, triggerValidFrom, ruleApplies, PVCharger.transitions, Src.containsMode,
    evalGuard, exitAction, enterAction, on_exit_off, on_enter_off]

lemma fire_from_off_registers (cfg : Config) (t : Trigger) (dur : Option ℚ) (st : PVCharger)
    (h : st.mode = Mode.off) (h2 : (fire cfg t dur st).1.mode ≠ Mode.off) :
    (fire cfg t dur st).1.handle_balance = true ∧
    (fire cfg t dur st).1.handle_soc = true := by
  obtain ⟨m, ctl, cur, soc, hb, hs, ph, th, pid⟩ := st
  subst h
  cases t <;>
    rcases hmin : PVCharger.min_soc cfg ⟨Mode.off, ctl, cur, soc, hb, hs, ph, th, pid⟩ <;>
    rcases hpow : PVCharger.enough_power cfg ⟨Mode.off, ctl, cur, soc, hb, hs, ph, th, pid⟩ <;>
    simp_all [fire, triggerValidFrom, ruleApplies, PVCharger.transitions,
      Src.containsMode, evalGuard, exitAction, enterAction, on_exit_off,
      on_enter_off, on_enter_pv, on_enter_max, on_enter_low_batt] <;>
    split_ifs <;> simp_all

lemma fire_boost_char (cfg : Config) (dur : Option ℚ) (st : PVCharger) :
    (fire cfg .boost dur st).2.2 = FireResult.ok true ∧
    (fire cfg .boost dur st).1.mode = Mode.max ∧
    (fire cfg .boost dur st).1.timeisup_handle = true ∧
    (fire cfg .boost dur st).1.control = cfg.charge_max ∧
    Effect.call_later (dur.getD 30) ∈ (fire cfg .boost dur st).2.1 ∧
    Effect.set_max_current cfg.charge_max ∈ (fire cfg .boost dur st).2.1 ∧
    (cfg.charge_switch = true → Effect.turn_switch true ∈ (fire cfg .boost dur st).2.1) := by
  obtain ⟨m, ctl, cur, soc, hb, hs, ph, th, pid⟩ := st
  cases m <;>
    simp_all [fire, triggerValidFrom, ruleApplies, PVCharger.transitions,
      Src.containsMode, evalGuard, exitAction, enterAction, on_exit_off,
      on_exit_pv, on_exit_max, on_exit_low_batt, on_enter_max] <;>
    split_ifs <;> simp_all

lemma time_is_up_char (cfg : Config) (st : PVCharger) (h : st.mode = Mode.max) :
    (PVCharger._async_time_is_up cfg st).2.2 = FireResult.ok true ∧
    (PVCharger._async_time_is_up cfg st).1.timeisup_handle = false ∧
    Effect.cancel_timeisup ∉ (PVCharger._async_time_is_up cfg st).2.1 := by
  obtain ⟨m, ctl, cur, soc, hb, hs, ph, th, pid⟩ := st
  subst h
  rcases hmin : PVCharger.min_soc cfg ⟨Mode.max, ctl, cur, soc, hb, hs, ph, false, pid⟩ <;>
  rcases hpow : PVCharger.enough_power cfg ⟨Mode.max, ctl, cur, soc, hb, hs, ph, false, pid⟩ <;>
    simp_all [PVCharger._async_time_is_up, fire, triggerValidFrom, ruleApplies,
      PVCharger.transitions, Src.containsMode, evalGuard, exitAction, enterAction,
      on_exit_max, on_enter_pv, on_enter_low_batt, PVCharger.min_soc,
      PVCharger.enough_power] <;>
    split_ifs <;> simp_all

end PVCharge

namespace PVCharge

/-! ### Reachability and the invariant chain -/

lemma transitions_dest_ne_calendar :
    ∀ r ∈ PVCharger.transitions, r.dest ≠ Mode.calendar := by decide

lemma fire_mode_ne_calendar (cfg : Config) (t : Trigger) (dur : Option ℚ) (st : PVCharger)
    (h : st.mode ≠ Mode.calendar) :
    (fire cfg t dur st).1.mode ≠ Mode.calendar := by
  rcases fire_mode_eq_or_dest cfg t dur st with he | ⟨r, hr, he⟩
  · rw [he]; exact h
  · rw [he]; exact transitions_dest_ne_calendar r hr

lemma watch_balance_mode_ne_calendar (cfg : Config) (v : ℚ) (st : PVCharger)
    (h : st.mode ≠ Mode.calendar) :
    (PVCharger._async_watch_balance_body cfg v st).1.mode ≠ Mode.calendar := by
  have h0 : ({ st with current := v } : PVCharger).mode ≠ Mode.calendar := h
  unfold PVCharger._async_watch_balance_body
  dsimp only
  split
  · split
    · exact fire_mode_ne_calendar _ _ _ _ (fire_mode_ne_calendar _ _ _ _ h0)
    · exact fire_mode_ne_calendar _ _ _ _ h0
  · split
    · exact fire_mode_ne_calendar _ _ _ _ h0
    · exact h0

lemma watch_soc_mode_ne_calendar (cfg : Config) (v : ℚ) (st : PVCharger)
    (h : st.mode ≠ Mode.calendar) :
    (PVCharger._async_watch_soc_body cfg v st).1.mode ≠ Mode.calendar := by
  have h0 : ({ st with soc := v } : PVCharger).mode ≠ Mode.calendar := h
  unfold PVCharger._async_watch_soc_body
  dsimp only
  split
  · split
    · exact fire_mode_ne_calendar _ _ _ _ (fire_mode_ne_calendar _ _ _ _ h0)
    · exact fire_mode_ne_calendar _ _ _ _ h0
  · split
    · exact fire_mode_ne_calendar _ _ _ _ h0
    · exact h0

lemma update_pid_mode (dt : ℚ) (st : PVCharger) (p : PVCharger × List Effect)
    (h : PVCharger._async_update_pid dt st = some p) : p.1.mode = st.mode := by
  unfold PVCharger._async_update_pid at h
  rcases hq : (st.pid.call st.current dt).2 with _ | out <;> simp [hq] at h
  rw [← h]

/-- One asynchronous callback of the charger: a fired trigger, a balance or
SOC watcher notification, expiry of the `max` timer, or a periodic PID
tick.  The watcher steps run the handler *bodies*; in the program those
bodies are dead (the dispatched attribute is the non-callable `True`, so a
real template update raises `TypeError` and changes nothing), so this
relation over-approximates the program's behaviour and unreachability
results over it are conservative. -/
inductive Step (cfg : Config) : PVCharger → PVCharger → Prop where
  | fire_step (t : Trigger) (dur : Option ℚ) (st : PVCharger) :
      Step cfg st (fire cfg t dur st).1
  | balance_step (v : ℚ) (st : PVCharger) :
      Step cfg st (PVCharger._async_watch_balance_body cfg v st).1
  | soc_step (v : ℚ) (st : PVCharger) :
      Step cfg st (PVCharger._async_watch_soc_body cfg v st).1
  | timer_step (st : PVCharger) :
      Step cfg st (PVCharger._async_time_is_up cfg st).1
  | pid_step (dt : ℚ) (st : PVCharger) (p : PVCharger × List Effect)
      (h : PVCharger._async_update_pid dt st = some p) :
      Step cfg st p.1

/-- Reachability by any sequence of callbacks. -/
def Reachable (cfg : Config) (st0 st : PVCharger) : Prop :=
  Relation.ReflTransGen (Step cfg) st0 st

lemma Inv_clear_timeisup (st : PVCharger) (h : Inv st) :
    Inv { st with timeisup_handle := false } := by
  obtain ⟨h1, h2, h3⟩ := h
  exact ⟨h1, by simp, h3⟩

lemma Inv_watch_balance (cfg : Config) (v : ℚ) (st : PVCharger) (h : Inv st) :
    Inv (PVCharger._async_watch_balance_body cfg v st).1 := by
  have h0 : Inv { st with current := v } := h
  unfold PVCharger._async_watch_balance_body
  dsimp only
  split
  · split
    · exact Inv_fire _ _ _ _ (Inv_fire _ _ _ _ h0)
    · exact Inv_fire _ _ _ _ h0
  · split
    · exact Inv_fire _ _ _ _ h0
    · exact h0

lemma Inv_watch_soc (cfg : Config) (v : ℚ) (st : PVCharger) (h : Inv st) :
    Inv (PVCharger._async_watch_soc_body cfg v st).1 := by
  have h0 : Inv { st with soc := v } := h
  unfold PVCharger._async_watch_soc_body
  dsimp only
  split
  · split
    · exact Inv_fire _ _ _ _ (Inv_fire _ _ _ _ h0)
    · exact Inv_fire _ _ _ _ h0
  · split
    · exact Inv_fire _ _ _ _ h0
    · exact h0

lemma Inv_update_pid (dt : ℚ) (st : PVCharger) (p : PVCharger × List Effect)
    (hp : PVCharger._async_update_pid dt st = some p) (h : Inv st) : Inv p.1 := by
  unfold PVCharger._async_update_pid at hp
  rcases hq : (st.pid.call st.current dt).2 with _ | out <;> simp [hq] at hp
  rw [← hp]
  exact h

/-- The bookkeeping invariant holds in every state reachable from one that
satisfies it, so hypotheses of the form `Inv st` below cover every state
the controller can actually be in. -/
theorem Inv_reachable (cfg : Config) (st0 st : PVCharger) (h0 : Inv st0)
    (h : Reachable cfg st0 st) : Inv st := by
  induction h with
  | refl => exact h0
  | tail hab hbc ih =>
    cases hbc with
    | fire_step t dur st => exact Inv_fire _ _ _ _ ih
    | balance_step v st => exact Inv_watch_balance _ _ _ ih
    | soc_step v st => exact Inv_watch_soc _ _ _ ih
    | timer_step st => exact Inv_fire _ _ _ _ (Inv_clear_timeisup _ ih)
    | pid_step dt st p hp => exact Inv_update_pid _ _ _ hp ih

lemma Inv_init (cfg : Config) (b s : Option ℚ) (st : PVCharger)
    (h : PVCharger.init cfg b s = some st) : Inv st := by
  rcases b with _ | q <;> rcases s with _ | r <;> simp [PVCharger.init] at h
  rw [← h]
  exact ⟨by simp, by simp, by simp⟩

/-! ### PID facts -/

/-- PID configuration fields as set once in `PVCharger.__init__`
(nothing in the component mutates them afterwards). -/
def PIDConfigured (cfg : Config) (p : PID) : Prop :=
  p.Kp = -1 ∧ p.Ki = -1/10 ∧ p.Kd = 0 ∧ p.setpoint = 0 ∧ p.sample_time = 1 ∧
  p.out_min = cfg.charge_min ∧ p.out_max = cfg.charge_max

instance instDecidablePIDConfigured (cfg : Config) (p : PID) :
    Decidable (PIDConfigured cfg p) :=
  inferInstanceAs (Decidable (_ ∧ _ ∧ _ ∧ _ ∧ _ ∧ _ ∧ _))

/-- Internal PID terms lie within the output limits. -/
def PIDGood (p : PID) : Prop :=
  p.out_min ≤ p.integral ∧ p.integral ≤ p.out_max ∧
  ∀ o ∈ p.last_output, p.out_min ≤ o ∧ o ≤ p.out_max

lemma pidClamp_mem (lo hi v : ℚ) (h : lo ≤ hi) :
    lo ≤ pidClamp lo hi v ∧ pidClamp lo hi v ≤ hi := by
  unfold pidClamp; split_ifs <;> constructor <;> linarith

lemma PID.call_range (p : PID) (input dt : ℚ) (hlim : p.out_min ≤ p.out_max)
    (hg : PIDGood p) :
    PIDGood (p.call input dt).1 ∧
    (p.call input dt).1.out_min = p.out_min ∧
    (p.call input dt).1.out_max = p.out_max ∧
    ∀ o, (p.call input dt).2 = some o → p.out_min ≤ o ∧ o ≤ p.out_max := by
  obtain ⟨hg1, hg2, hg3⟩ := hg
  unfold PID.call
  split_ifs with h1 h2
  · exact ⟨⟨hg1, hg2, hg3⟩, rfl, rfl, fun o ho => hg3 o (by simpa [Option.mem_def] using ho)⟩
  · exact ⟨⟨hg1, hg2, hg3⟩, rfl, rfl, fun o ho => hg3 o (by simpa [Option.mem_def] using ho)⟩
  · refine ⟨⟨(pidClamp_mem _ _ _ hlim).1, (pidClamp_mem _ _ _ hlim).2, ?_⟩, rfl, rfl, ?_⟩
    · intro o ho
      simp only [Option.mem_def, Option.some_inj] at ho
      rw [← ho]
      exact pidClamp_mem _ _ _ hlim
    · intro o ho
      simp only [Option.some_inj] at ho
      rw [← ho]
      exact pidClamp_mem _ _ _ hlim

/-! ### Concrete example data -/

/-- Example configuration: no charge switch, output limits 6..16 A,
PV threshold 0.5 kW with 0.1 kW hysteresis, low-SOC threshold 30 %,
PID tick every 5 s. -/
def cfgEx : Config :=
  { charge_switch := false, charge_min := 6, charge_max := 16,
    pv_threshold := 1/2, pv_hysteresis := 1/10, duration := 30,
    low_value := 30, pid_interval := 5 }

/-- Example state in `idle` with the watchers registered. -/
def stIdle : PVCharger :=
  { mode := .idle, control := 6, current := 3, soc := 50,
    handle_balance := true, handle_soc := true,
    pid_handle := false, timeisup_handle := false, pid := PID.init cfgEx }

/-- Example state in `pv` with the PID tick registered. -/
def stPv : PVCharger := { stIdle with mode := .pv, pid_handle := true }

/-- Example state in `max` with a pending expiry timer. -/
def stMax : PVCharger := { stIdle with mode := .max, timeisup_handle := true }

/-- Example state in `off` with nothing registered. -/
def stOff : PVCharger :=
  { stIdle with mode := .off, handle_balance := false, handle_soc := false }

/-- Example `idle` state whose PID is in manual mode (as after leaving `pv`). -/
def stManual : PVCharger :=
  { stIdle with pid := { PID.init cfgEx with auto_mode := false } }

end PVCharge

namespace PVCharge

/-! ### Claims -/

/-- C1: from every mode in `{off, max, low_batt, calendar}` and for every
cached SOC and balance, firing `auto` resolves its three rules in
declaration order: it lands in `low_batt` whenever `min_soc` is false
(regardless of `enough_power`), otherwise in `pv` whenever `enough_power`
is true, otherwise in `idle`. -/
theorem auto_priority_resolution (cfg : Config) (dur : Option ℚ) (st : PVCharger)
    (h : st.mode = Mode.off ∨ st.mode = Mode.max ∨ st.mode = Mode.low_batt ∨
         st.mode = Mode.calendar) :
    (fire cfg .auto dur st).2.2 = FireResult.ok true ∧
    (fire cfg .auto dur st).1.mode =
      (if PVCharger.min_soc cfg st = false then Mode.low_batt
       else if PVCharger.enough_power cfg st = true then Mode.pv else Mode.idle) := by
  obtain ⟨m, ctl, cur, soc, hb, hs, ph, th, pid⟩ := st
  rcases h with h | h | h | h <;> subst h <;>
    rcases hmin : PVCharger.min_soc cfg ⟨_, ctl, cur, soc, hb, hs, ph, th, pid⟩ <;>
    rcases hpow : PVCharger.enough_power cfg ⟨_, ctl, cur, soc, hb, hs, ph, th, pid⟩ <;>
      simp_all [fire, triggerValidFrom, ruleApplies, PVCharger.transitions,
        Src.containsMode, evalGuard, exitAction, enterAction, on_exit_off,
        on_enter_pv, on_enter_low_batt, on_exit_max, on_exit_low_batt,
        on_enter_max]

unseal Rat.add Rat.sub Rat.mul Rat.inv in
/-- Witness for C1: in `off` with SOC 10 (below 30) and balance 3 (above
the 0.5 threshold), `auto` lands in `low_batt`, not `pv`. -/
theorem auto_priority_resolution_witness :
    PVCharger.min_soc cfgEx { stOff with soc := 10 } = false ∧
    PVCharger.enough_power cfgEx { stOff with soc := 10 } = true ∧
    (fire cfgEx .auto none { stOff with soc := 10 }).1.mode = Mode.low_batt := by
  refine ⟨by decide, by decide, ?_⟩
  have h := auto_priority_resolution cfgEx none { stOff with soc := 10 } (Or.inl rfl)
  rw [h.2]
  decide

/-- C2 (amended): when no transition row for trigger `t` has the current
mode in its source set, firing `t` leaves the state unchanged and performs
no action, but it is not silent: the `transitions` library raises
`MachineError`, because the machine is constructed without
`ignore_invalid_triggers`. -/
theorem invalid_trigger_raises_machine_error (cfg : Config) (t : Trigger)
    (dur : Option ℚ) (st : PVCharger)
    (h : ∀ r ∈ PVCharger.transitions, r.trigger = t →
         r.source.containsMode st.mode = false) :
    fire cfg t dur st = (st, [], FireResult.machineError) := by
  have hv : triggerValidFrom t st.mode = false := by
    simp only [triggerValidFrom, List.any_eq_false]
    intro r hr
    rcases ht : decide (r.trigger = t) with _ | _
    · simp
    · simp_all
  simp [fire, hv]

/-- Witness for C2 (amended): `start` fired in `pv` raises `MachineError`
with the state untouched. -/
theorem invalid_trigger_raises_machine_error_witness :
    (∀ r ∈ PVCharger.transitions, r.trigger = Trigger.start →
      r.source.containsMode stPv.mode = false) ∧
    fire cfgEx Trigger.start none stPv = (stPv, [], FireResult.machineError) :=
  ⟨by decide,
   invalid_trigger_raises_machine_error cfgEx Trigger.start none stPv (by decide)⟩

/-- Counterexample to C2 as stated: firing `start` while in `pv` does
surface an error (`MachineError`), it is not a silent no-op. -/
theorem invalid_trigger_error_counterexample :
    (fire cfgEx Trigger.start none stPv).2.2 = FireResult.machineError ∧
    ∀ b : Bool, (fire cfgEx Trigger.start none stPv).2.2 ≠ FireResult.ok b := by
  decide

/-- The `enough_power` guard is true exactly when the cached balance
strictly exceeds `pv_threshold - pv_hysteresis` in `pv` mode and
`pv_threshold` otherwise; and the balance handler *body* (dead code, see
`PVCharger._async_watch_balance`) would fire `pause` from `pv` exactly
when the new balance is at or below `pv_threshold - pv_hysteresis`, and
`start` from `idle` exactly when it strictly exceeds `pv_threshold`. -/
theorem enough_power_hysteresis (cfg : Config) (st : PVCharger) (v : ℚ) :
    (PVCharger.enough_power cfg st = true ↔
      (if st.mode = Mode.pv then st.current > cfg.pv_threshold - cfg.pv_hysteresis
       else st.current > cfg.pv_threshold)) ∧
    (st.mode = Mode.pv →
      (Trigger.pause ∈ (PVCharger._async_watch_balance_body cfg v st).2.2 ↔
        v ≤ cfg.pv_threshold - cfg.pv_hysteresis)) ∧
    (st.mode = Mode.idle →
      (Trigger.start ∈ (PVCharger._async_watch_balance_body cfg v st).2.2 ↔
        v > cfg.pv_threshold)) := by
  obtain ⟨m, ctl, cur, soc, hb, hs, ph, th, pid⟩ := st
  refine ⟨?_, ?_, ?_⟩
  · unfold PVCharger.enough_power
    split <;> simp
  · intro hm
    subst hm
    by_cases hv : v ≤ cfg.pv_threshold - cfg.pv_hysteresis <;>
      simp_all [PVCharger._async_watch_balance_body, PVCharger.enough_power] <;>
      first
        | (intro hcontra; simp at hcontra)
        | (split <;> simp_all) <;> linarith
  · intro hm
    subst hm
    by_cases hv : v > cfg.pv_threshold <;>
      simp_all [PVCharger._async_watch_balance_body, PVCharger.enough_power] <;>
      first
        | (intro hcontra; simp at hcontra)
        | (split <;> simp_all) <;> linarith

unseal Rat.add Rat.sub Rat.mul Rat.inv in
/-- Concrete instance of `enough_power_hysteresis`: in `pv` the body would
fire `pause` at balance 0.25 (at or below 0.5 - 0.1); in `idle` it would
fire `start` at balance 1 (above 0.5). -/
theorem enough_power_hysteresis_witness :
    Trigger.pause ∈ (PVCharger._async_watch_balance_body cfgEx (1/4) stPv).2.2 ∧
    Trigger.start ∈ (PVCharger._async_watch_balance_body cfgEx 1 stIdle).2.2 :=
  ⟨((enough_power_hysteresis cfgEx stPv (1/4)).2.1 (by decide)).mpr (by decide),
   ((enough_power_hysteresis cfgEx stIdle 1).2.2 (by decide)).mpr (by decide)⟩

/-- C4: from every mode (under the handle-bookkeeping invariant), `halt`
completes with the mode `off` and no background registration left: the
watcher handles are gone, the PID tick and expiry timer are cleared, a
registered PID tick or pending timer is actively cancelled, and any
subsequent transition out of `off` re-registers both watcher handles. -/
theorem halt_cleanup (cfg : Config) (dur : Option ℚ) (st : PVCharger) (h : Inv st) :
    (fire cfg .halt dur st).2.2 = FireResult.ok true ∧
    (fire cfg .halt dur st).1.mode = Mode.off ∧
    (fire cfg .halt dur st).1.handle_balance = false ∧
    (fire cfg .halt dur st).1.handle_soc = false ∧
    (fire cfg .halt dur st).1.pid_handle = false ∧
    (fire cfg .halt dur st).1.timeisup_handle = false ∧
    (st.pid_handle = true → Effect.cancel_pid_handle ∈ (fire cfg .halt dur st).2.1) ∧
    (st.timeisup_handle = true → Effect.cancel_timeisup ∈ (fire cfg .halt dur st).2.1) ∧
    (∀ (t2 : Trigger) (dur2 : Option ℚ) (st2 : PVCharger), st2.mode = Mode.off →
      (fire cfg t2 dur2 st2).1.mode ≠ Mode.off →
      (fire cfg t2 dur2 st2).1.handle_balance = true ∧
      (fire cfg t2 dur2 st2).1.handle_soc = true) := by
  obtain ⟨hstate, hres⟩ := fire_halt_char cfg dur st h
  obtain ⟨hpm, htm⟩ := fire_halt_effects cfg dur st h
  exact ⟨hres, by rw [hstate], by rw [hstate], by rw [hstate], by rw [hstate],
         by rw [hstate], hpm, htm,
         fun t2 dur2 st2 => fire_from_off_registers cfg t2 dur2 st2⟩

/-- Witness for C4: `halt` from the `pv` example state lands in `off`,
clears the PID tick and cancels it. -/
theorem halt_cleanup_witness :
    (fire cfgEx .halt none stPv).1.mode = Mode.off ∧
    (fire cfgEx .halt none stPv).1.pid_handle = false ∧
    Effect.cancel_pid_handle ∈ (fire cfgEx .halt none stPv).2.1 := by
  have h := halt_cleanup cfgEx none stPv (by decide)
  exact ⟨h.2.1, h.2.2.2.2.1, h.2.2.2.2.2.2.1 (by decide)⟩

end PVCharge

namespace PVCharge

/-- C5 (amended): construction seeds the cached balance and SOC with the
parsed renders and `control` with `charge_min`, but only when both renders
parse as numbers; an unparsable render makes `float()` raise, so
construction fails — there is no fallback to a configured default. -/
theorem init_seed_requires_parsable (cfg : Config) (q r : ℚ) :
    PVCharger.init cfg (some q) (some r) =
      some { mode := Mode.off, control := cfg.charge_min, current := q, soc := r,
             handle_balance := false, handle_soc := false,
             pid_handle := false, timeisup_handle := false, pid := PID.init cfg } ∧
    (∀ s : Option ℚ, PVCharger.init cfg none s = none) ∧
    (∀ b : Option ℚ, PVCharger.init cfg b none = none) := by
  refine ⟨rfl, fun s => ?_, fun b => ?_⟩
  · rcases s with _ | s <;> rfl
  · rcases b with _ | b <;> rfl

/-- Counterexample to C5 as stated: with an unparsable balance render,
construction yields no `PVCharger` at all instead of falling back to a
default. -/
theorem init_unparsable_counterexample :
    PVCharger.init cfgEx none (some 50) = none ∧
    (PVCharger.init cfgEx none (some 50)).isSome = false :=
  ⟨rfl, rfl⟩

/-- C6 (amended): on every entry into `pv` the commanded output is reset
to `charge_min` and pushed first, PID auto mode is on, the charger switch
is turned on when configured, and the periodic tick is registered at
`pid_interval`; re-enabling from manual mode presets the stored output to
`charge_min` and the integral to its clamp (simple-pid bumpless transfer),
so the first computed output equals `charge_min` exactly when the cached
measurement equals the setpoint — in general it also carries the
proportional and integral error terms — and every computed output is
clamped into `[charge_min, charge_max]`. -/
theorem enter_pv_bumpless (cfg : Config) (st : PVCharger) :
    ((on_enter_pv cfg st).1.control = cfg.charge_min ∧
     (on_enter_pv cfg st).1.pid_handle = true ∧
     (on_enter_pv cfg st).1.pid.auto_mode = true ∧
     (on_enter_pv cfg st).1.current = st.current ∧
     (on_enter_pv cfg st).2 =
       [Effect.set_max_current cfg.charge_min]
         ++ (if cfg.charge_switch = true then [Effect.turn_switch true] else [])
         ++ [Effect.track_time_interval cfg.pid_interval]) ∧
    (st.pid.auto_mode = false →
      (on_enter_pv cfg st).1.pid.last_output = some cfg.charge_min ∧
      (on_enter_pv cfg st).1.pid.integral =
        pidClamp st.pid.out_min st.pid.out_max cfg.charge_min) ∧
    (PIDConfigured cfg st.pid → st.pid.auto_mode = false →
      cfg.charge_min ≤ cfg.charge_max → ∀ dt : ℚ, 1 ≤ dt → st.current = 0 →
      ((on_enter_pv cfg st).1.pid.call (on_enter_pv cfg st).1.current dt).2 =
        some cfg.charge_min) ∧
    (PIDConfigured cfg st.pid → st.pid.auto_mode = false →
      cfg.charge_min ≤ cfg.charge_max → PIDGood (on_enter_pv cfg st).1.pid) ∧
    (∀ (p : PID) (input dt : ℚ), p.out_min ≤ p.out_max → PIDGood p →
      ∀ o, (p.call input dt).2 = some o → p.out_min ≤ o ∧ o ≤ p.out_max) := by
  refine ⟨⟨rfl, rfl, ?_, rfl, rfl⟩, ?_, ?_, ?_, ?_⟩
  · unfold on_enter_pv PID.set_auto_mode
    dsimp only
    split_ifs <;> rfl
  · intro hman
    unfold on_enter_pv PID.set_auto_mode
    simp [hman]
  · rintro ⟨hKp, hKi, hKd, hsp, hst, hmin, hmax⟩ hman hle dt hdt hcur
    unfold on_enter_pv PID.set_auto_mode PID.call
    simp only [hman, Bool.not_false, Bool.and_self, if_pos, hcur]
    have hns : ¬ (dt < (1 : ℚ)) := by linarith
    simp [hKp, hKi, hKd, hsp, hst, hmin, hmax, hns, pidClamp, hle]
    split_ifs <;> try rfl
    all_goals linarith
  · rintro ⟨hKp, hKi, hKd, hsp, hst, hmin, hmax⟩ hman hle
    unfold on_enter_pv PID.set_auto_mode PIDGood
    simp only [hman, Bool.not_false, Bool.and_self, if_pos]
    refine ⟨?_, ?_, ?_⟩
    · simpa [hmin, hmax] using
        (pidClamp_mem cfg.charge_min cfg.charge_max cfg.charge_min
          (by simpa [hmin, hmax] using hle)).1
    · simpa [hmin, hmax] using
        (pidClamp_mem cfg.charge_min cfg.charge_max cfg.charge_min
          (by simpa [hmin, hmax] using hle)).2
    · intro o ho
      simp only [Option.mem_def, Option.some_inj] at ho
      simp_all [hmin, hmax]
  · intro p input dt hlim hg
    exact (PID.call_range p input dt hlim hg).2.2.2

unseal Rat.add Rat.sub Rat.mul Rat.inv in
/-- Witness for C6 (amended): re-entering `pv` from manual mode with the
measurement at the setpoint, the first tick after 5 s computes exactly
`charge_min` (6 A). -/
theorem enter_pv_bumpless_witness :
    (on_enter_pv cfgEx { stManual with current := 0 }).1.control = cfgEx.charge_min ∧
    ((on_enter_pv cfgEx { stManual with current := 0 }).1.pid.call
        (on_enter_pv cfgEx { stManual with current := 0 }).1.current 5).2 =
      some cfgEx.charge_min := by
  have h := enter_pv_bumpless cfgEx { stManual with current := 0 }
  exact ⟨h.1.1, h.2.2.1 (by decide) (by decide) (by decide) 5 (by decide) (by decide)⟩

unseal Rat.add Rat.sub Rat.mul Rat.inv in
/-- Counterexample to C6 as stated: re-entering `pv` from manual mode with
cached balance 3, the first tick after 5 s computes 10.5 A, not the
configured minimum 6 A — the first output is not `charge_min` regardless
of circumstances. -/
theorem enter_pv_first_output_counterexample :
    ((on_enter_pv cfgEx stManual).1.pid.call
        (on_enter_pv cfgEx stManual).1.current 5).2 = some (21/2) ∧
    ((21 : ℚ)/2) ≠ cfgEx.charge_min := by
  constructor <;> decide

/-- C7 (amended): after a first `halt` the mode is `off`; a second `halt`
is a valid reflexive `off → off` transition: it changes neither mode nor
state (the exit action re-registers the watcher handles and the enter
action immediately removes them), but the exit and enter actions do run
and their side effects are visible. -/
theorem halt_twice_reflexive (cfg : Config) (dur dur2 : Option ℚ) (st : PVCharger)
    (h : Inv st) :
    (fire cfg .halt dur st).1.mode = Mode.off ∧
    (fire cfg .halt dur2 (fire cfg .halt dur st).1).2.2 = FireResult.ok true ∧
    (fire cfg .halt dur2 (fire cfg .halt dur st).1).1 = (fire cfg .halt dur st).1 ∧
    (fire cfg .halt dur2 (fire cfg .halt dur st).1).2.1 =
      [Effect.track_balance, Effect.track_soc,
       Effect.remove_handle "balance", Effect.remove_handle "soc"] := by
  obtain ⟨hstate, hres⟩ := fire_halt_char cfg dur st h
  have hm : (fire cfg .halt dur st).1.mode = Mode.off := by rw [hstate]
  have hb : (fire cfg .halt dur st).1.handle_balance = false := by rw [hstate]
  have hs : (fire cfg .halt dur st).1.handle_soc = false := by rw [hstate]
  have h2 := fire_halt_off cfg dur2 _ hm hb hs
  exact ⟨hm, by rw [h2], by rw [h2], by rw [h2]⟩

/-- Witness for C7 (amended): two consecutive `halt`s from the `idle`
example state. -/
theorem halt_twice_reflexive_witness :
    (fire cfgEx .halt none stIdle).1.mode = Mode.off ∧
    (fire cfgEx .halt none (fire cfgEx .halt none stIdle).1).1 =
      (fire cfgEx .halt none stIdle).1 :=
  ⟨(halt_twice_reflexive cfgEx none none stIdle (by decide)).1,
   (halt_twice_reflexive cfgEx none none stIdle (by decide)).2.2.1⟩

/-- Counterexample to C7 as stated: the second `halt` does perform the
`off` exit/enter actions — its side-effect trace is not empty. -/
theorem halt_twice_side_effects_counterexample :
    (fire cfgEx .halt none (fire cfgEx .halt none stIdle).1).2.1 ≠ ([] : List Effect) ∧
    (fire cfgEx .halt none (fire cfgEx .halt none stIdle).1).2.1 =
      [Effect.track_balance, Effect.track_soc,
       Effect.remove_handle "balance", Effect.remove_handle "soc"] := by
  constructor <;> decide

end PVCharge

namespace PVCharge

/-- C8: `boost` always lands in `max`, registering a one-shot expiry timer
whose duration defaults to 30 minutes and is overridden by the trigger
argument, forcing the output to `charge_max`, pushing it, and turning the
charger on when configured; the expiry callback clears the handle before
firing `auto` (so `auto`'s exit from `max` cancels nothing); any exit from
`max` with a pending timer cancels it and clears the handle. -/
theorem max_mode_timer (cfg : Config) (dur : Option ℚ) (st : PVCharger) :
    ((fire cfg .boost dur st).2.2 = FireResult.ok true ∧
     (fire cfg .boost dur st).1.mode = Mode.max ∧
     (fire cfg .boost dur st).1.timeisup_handle = true ∧
     (fire cfg .boost dur st).1.control = cfg.charge_max ∧
     Effect.call_later (dur.getD 30) ∈ (fire cfg .boost dur st).2.1 ∧
     Effect.set_max_current cfg.charge_max ∈ (fire cfg .boost dur st).2.1 ∧
     (cfg.charge_switch = true → Effect.turn_switch true ∈ (fire cfg .boost dur st).2.1)) ∧
    (st.mode = Mode.max →
      ((PVCharger._async_time_is_up cfg st).2.2 = FireResult.ok true ∧
       (PVCharger._async_time_is_up cfg st).1.timeisup_handle = false ∧
       Effect.cancel_timeisup ∉ (PVCharger._async_time_is_up cfg st).2.1)) ∧
    (∀ s : PVCharger, s.timeisup_handle = true →
      on_exit_max cfg s =
        ({ s with timeisup_handle := false },
         Effect.cancel_timeisup ::
           (if cfg.charge_switch = true then [Effect.turn_switch false] else []))) := by
  refine ⟨fire_boost_char cfg dur st, fun hm => time_is_up_char cfg st hm, ?_⟩
  intro s hts
  simp [on_exit_max, hts]

unseal Rat.add Rat.sub Rat.mul Rat.inv in
/-- Witness for C8: `boost` with a 45-minute override from `idle`
registers a 45-minute timer; timer expiry in the `max` example state fires
without cancelling the already-cleared handle; the `max` exit action
cancels the pending timer. -/
theorem max_mode_timer_witness :
    (fire cfgEx .boost (some 45) stIdle).1.mode = Mode.max ∧
    Effect.call_later 45 ∈ (fire cfgEx .boost (some 45) stIdle).2.1 ∧
    Effect.cancel_timeisup ∉ (PVCharger._async_time_is_up cfgEx stMax).2.1 ∧
    on_exit_max cfgEx stMax =
      ({ stMax with timeisup_handle := false }, [Effect.cancel_timeisup]) := by
  have h := max_mode_timer cfgEx (some 45) stIdle
  have h2 := max_mode_timer cfgEx none stMax
  refine ⟨h.1.2.1, ?_, (h2.2.1 (by decide)).2.2, ?_⟩
  · simpa using h.1.2.2.2.2.1
  · rw [h2.2.2 stMax (by decide)]
    decide

/-- The SOC handler *body* (dead code, see `PVCharger._async_watch_soc`)
would replace the cached SOC; from `low_batt` it would fire `auto` exactly
when the new SOC reaches the threshold (`min_soc` uses `≥`, so equality
counts as sufficient); from `idle` or `pv` with the new SOC strictly below
the threshold it would fire `soc_low`, landing in `low_batt` with the
output forced to `charge_max`. -/
theorem soc_watcher_update (cfg : Config) (st : PVCharger) (v : ℚ) :
    ((PVCharger._async_watch_soc_body cfg v st).1.soc = v) ∧
    (st.mode = Mode.low_batt →
      (Trigger.auto ∈ (PVCharger._async_watch_soc_body cfg v st).2.2 ↔ v ≥ cfg.low_value)) ∧
    ((st.mode = Mode.idle ∨ st.mode = Mode.pv) → v < cfg.low_value →
      (Trigger.soc_low ∈ (PVCharger._async_watch_soc_body cfg v st).2.2 ∧
       (PVCharger._async_watch_soc_body cfg v st).1.mode = Mode.low_batt ∧
       (PVCharger._async_watch_soc_body cfg v st).1.control = cfg.charge_max)) := by
  obtain ⟨m, ctl, cur, soc, hb, hs, ph, th, pid⟩ := st
  refine ⟨?_, ?_, ?_⟩
  · unfold PVCharger._async_watch_soc_body
    dsimp only
    split
    · split
      · exact fire_soc _ _ _ _ |>.trans (fire_soc _ _ _ _)
      · exact fire_soc _ _ _ _
    · split
      · exact fire_soc _ _ _ _
      · rfl
  · intro hm
    subst hm
    by_cases hv : v ≥ cfg.low_value <;>
      simp_all [PVCharger._async_watch_soc_body, PVCharger.min_soc, fire_soc] <;>
      first
        | (intro hcontra; simp at hcontra)
        | (split <;> simp_all [fire_soc]) <;> linarith
  · rintro (hm | hm) hv <;> subst hm <;>
      simp_all [PVCharger._async_watch_soc_body, PVCharger.min_soc, fire, triggerValidFrom,
        ruleApplies, PVCharger.transitions, Src.containsMode, evalGuard,
        exitAction, enterAction, on_exit_pv, on_enter_low_batt] <;>
      split_ifs <;> simp_all

unseal Rat.add Rat.sub Rat.mul Rat.inv in
/-- Concrete instance of `soc_watcher_update`: the body at SOC 20 % in
`pv` would fire `soc_low` into `low_batt` at 16 A, and at SOC 31 % in
`low_batt` would fire `auto`. -/
theorem soc_watcher_update_witness :
    Trigger.soc_low ∈ (PVCharger._async_watch_soc_body cfgEx 20 stPv).2.2 ∧
    (PVCharger._async_watch_soc_body cfgEx 20 stPv).1.mode = Mode.low_batt ∧
    (PVCharger._async_watch_soc_body cfgEx 20 stPv).1.control = cfgEx.charge_max ∧
    Trigger.auto ∈
      (PVCharger._async_watch_soc_body cfgEx 31 { stIdle with mode := Mode.low_batt }).2.2 := by
  have h := (soc_watcher_update cfgEx stPv 20).2.2 (Or.inr (by decide)) (by decide)
  have h2 := ((soc_watcher_update cfgEx { stIdle with mode := Mode.low_batt } 31).2.1
    (by decide)).mpr (by decide)
  exact ⟨h.1, h.2.1, h.2.2, h2⟩

/-- C10: starting from the initial mode `off`, no sequence of fired
triggers or watcher/timer callbacks ever makes `calendar` the current
mode — no transition row has `calendar` as its destination. -/
theorem calendar_unreachable (cfg : Config) (st0 st : PVCharger)
    (h0 : st0.mode = Mode.off) (h : Reachable cfg st0 st) :
    st.mode ≠ Mode.calendar := by
  induction h with
  | refl => simp [h0]
  | tail hab hbc ih =>
    cases hbc with
    | fire_step t dur st => exact fire_mode_ne_calendar _ _ _ _ ih
    | balance_step v st => exact watch_balance_mode_ne_calendar _ _ _ ih
    | soc_step v st => exact watch_soc_mode_ne_calendar _ _ _ ih
    | timer_step st => exact fire_mode_ne_calendar _ _ _ _ ih
    | pid_step dt st p hp => rw [update_pid_mode _ _ _ hp]; exact ih

/-- Witness for C10: one `boost` step from the `off` example state does
not reach `calendar`. -/
theorem calendar_unreachable_witness :
    stOff.mode = Mode.off ∧
    (fire cfgEx .boost none stOff).1.mode ≠ Mode.calendar :=
  ⟨by decide,
   calendar_unreachable cfgEx stOff _ (by decide)
     (Relation.ReflTransGen.single (Step.fire_step .boost none stOff))⟩

end PVCharge

namespace PVCharge

unseal Rat.add Rat.sub Rat.mul Rat.inv in
/-- C3 (code bug): line 96 decorates `_async_watch_balance` with the
Python builtin `callable`, rebinding the class attribute to the
non-callable `True`, so every balance-template update raises `TypeError`
and neither caches the new balance nor fires anything; the decorated-away
body at lines 97-110 — which the claim (and the spec) describes — would
have fired `pause` into `idle` at the failing input (balance dropping to
1/4 while in `pv` under `cfgEx`). -/
theorem balance_watcher_never_runs :
    PVCharger._async_watch_balance = TrackAction.nonCallable ∧
    (∀ (cfg : Config) (v : ℚ) (st : PVCharger),
      invokeAction PVCharger._async_watch_balance cfg v st =
        Except.error PyError.typeError) ∧
    Trigger.pause ∈ (PVCharger._async_watch_balance_body cfgEx (1/4) stPv).2.2 ∧
    (PVCharger._async_watch_balance_body cfgEx (1/4) stPv).1.mode = Mode.idle ∧
    (PVCharger._async_watch_balance_body cfgEx (1/4) stPv).1.current = 1/4 := by
  refine ⟨rfl, fun cfg v st => rfl, ?_, ?_, ?_⟩ <;> decide

unseal Rat.add Rat.sub Rat.mul Rat.inv in
/-- C9 (code bug): line 112 decorates `_async_watch_soc` with the Python
builtin `callable`, rebinding the class attribute to the non-callable
`True`, so every SOC-template update raises `TypeError` and never replaces
the cached SOC or fires `auto`/`soc_low`; the decorated-away body at lines
113-126 — which the claim (and the spec) describes — would, at the failing
input (SOC dropping to 20 while in `pv` with SOC 50 under `cfgEx`), have
cached SOC 20 and fired `soc_low` into `low_batt` with the output forced
to `charge_max`. -/
theorem soc_watcher_never_runs :
    PVCharger._async_watch_soc = TrackAction.nonCallable ∧
    (∀ (cfg : Config) (v : ℚ) (st : PVCharger),
      invokeAction PVCharger._async_watch_soc cfg v st =
        Except.error PyError.typeError) ∧
    stPv.soc = 50 ∧
    Trigger.soc_low ∈ (PVCharger._async_watch_soc_body cfgEx 20 stPv).2.2 ∧
    (PVCharger._async_watch_soc_body cfgEx 20 stPv).1.soc = 20 ∧
    (PVCharger._async_watch_soc_body cfgEx 20 stPv).1.mode = Mode.low_batt ∧
    (PVCharger._async_watch_soc_body cfgEx 20 stPv).1.control = cfgEx.charge_max := by
  refine ⟨rfl, fun cfg v st => rfl, ?_, ?_, ?_, ?_, ?_⟩ <;> decide

end PVCharge
